import Mathlib

/-!
# Verification of the HART evaluation backend (src/app.py)

A shallow embedding of the normalization & reporting core of the FastAPI
service in `src/app.py`, together with theorems settling the specification
claims about it.

Conventions of the embedding:
* Parsed JSON is the inductive type `Json`.  JSON numbers are modelled as
  integers (`Int`); no claim under consideration involves fractional
  numbers.
* Python dictionaries are association lists with first-match lookup;
  assignment (`d[k] = v`) replaces the value at the first occurrence of the
  key, keeping its position, and appends at the end when the key is fresh —
  exactly the insertion-order behaviour of CPython dicts.
* Python operations that can raise (`.items()` on a non-dict, iterating a
  non-iterable) return `Except PyErr`.
* `str(x)` of a parsed-JSON value is `pyStr`; `repr` of strings is modelled
  without escape handling (no input in this development contains quotes or
  control characters).
-/

namespace Hart

/-- Parsed JSON values (the possible results of `json.loads`).  Numbers are
modelled as integers. -/
inductive Json where
  | null : Json
  | bool : Bool → Json
  | num : Int → Json
  | str : String → Json
  | arr : List Json → Json
  | obj : List (String × Json) → Json

/-- Python exceptions that the embedded code can raise. -/
inductive PyErr where
  | attributeError : PyErr
  | typeError : PyErr
deriving DecidableEq

mutual

/-- Python `repr` of a parsed-JSON value (used by `str` on the elements of a
list or dict).  String escaping is elided. -/
def pyRepr : Json → String
  | Json.null => "None"
  | Json.bool true => "True"
  | Json.bool false => "False"
  | Json.num n => toString n
  | Json.str s => "'" ++ s ++ "'"
  | Json.arr xs => "[" ++ pyReprList xs ++ "]"
  | Json.obj kvs => "\x7b" ++ pyReprObj kvs ++ "\x7d"

/-- `repr` of the elements of a Python list, comma-separated. -/
def pyReprList : List Json → String
  | [] => ""
  | [x] => pyRepr x
  | x :: y :: rest => pyRepr x ++ ", " ++ pyReprList (y :: rest)

/-- `repr` of the entries of a Python dict, comma-separated. -/
def pyReprObj : List (String × Json) → String
  | [] => ""
  | [(k, v)] => "'" ++ k ++ "': " ++ pyRepr v
  | (k, v) :: p :: rest => "'" ++ k ++ "': " ++ pyRepr v ++ ", " ++ pyReprObj (p :: rest)

end

/-- Python `str` of a parsed-JSON value, as used by `str(v)` and by f-string
interpolation in the source. -/
def pyStr : Json → String
  | Json.null => "None"
  | Json.bool true => "True"
  | Json.bool false => "False"
  | Json.num n => toString n
  | Json.str s => s
  | Json.arr xs => "[" ++ pyReprList xs ++ "]"
  | Json.obj kvs => "\x7b" ++ pyReprObj kvs ++ "\x7d"

/-- First-match lookup in an association list (CPython dict lookup). -/
def alookup : List (String × Json) → String → Option Json
  | [], _ => none
  | (k, v) :: rest, key => if k = key then some v else alookup rest key

/-- Python `d.get(key, default)` on a dict. -/
def getD (kvs : List (String × Json)) (key : String) (d : Json) : Json :=
  (alookup kvs key).getD d

/-- Python `d[key] = v`: replace the value at the key's position when
present, append otherwise. -/
def setKey : List (String × Json) → String → Json → List (String × Json)
  | [], key, v => [(key, v)]
  | (k, w) :: rest, key, v =>
      if k = key then (k, v) :: rest else (k, w) :: setKey rest key v

/-- Python `.items()`: succeeds on a dict, raises `AttributeError` on every
other parsed-JSON value. -/
def pyItems : Json → Except PyErr (List (String × Json))
  | Json.obj kvs => Except.ok kvs
  | _ => Except.error PyErr.attributeError

/-- Python iteration (`for item in x`): lists yield their elements, strings
their one-character substrings, dicts their keys; every other value raises
`TypeError`. -/
def pyIter : Json → Except PyErr (List Json)
  | Json.arr xs => Except.ok xs
  | Json.str s => Except.ok (s.toList.map fun c => Json.str (String.singleton c))
  | Json.obj kvs => Except.ok (kvs.map fun p => Json.str p.1)
  | _ => Except.error PyErr.typeError

/-- Python `int`-or-`str` union used for the `age` field of `IntakeForm`. -/
inductive PyAge where
  | int : Int → PyAge
  | str : String → PyAge
deriving DecidableEq

/-- `str(age)` as rendered by f-string interpolation. -/
def ageStr : PyAge → String
  | PyAge.int n => toString n
  | PyAge.str s => s

/-- The `IntakeForm` pydantic model (src/app.py lines 38-45).  `Optional`
fields are `Option`, absent being `none` (pydantic default `None`). -/
structure IntakeForm where
  name : String
  age : PyAge
  gender : Option String
  symptoms : List String
  history : Option String
  medications : Option String
  lifestyle : Option (List (String × String))
deriving DecidableEq

/-- `patient.gender or "Not specified"` (line 73): Python `or` takes the
right operand when the left is falsy, i.e. `None` or the empty string. -/
def genderOrDefault : Option String → String
  | none => "Not specified"
  | some s => if s = "" then "Not specified" else s

/-- Python whitespace, as stripped by `str.strip()`. -/
def isPyWs (c : Char) : Bool :=
  c = ' ' ∨ c = '\t' ∨ c = '\n' ∨ c = '\r' ∨ c = Char.ofNat 11 ∨ c = Char.ofNat 12

/-- Python `s.strip()`: remove leading and trailing whitespace. -/
def pyStrip (s : String) : String :=
  String.mk (((s.toList.dropWhile isPyWs).reverse.dropWhile isPyWs).reverse)

/-- One `- key: value` line per risk flag (line 90). -/
def riskFlagLines : List (String × Json) → String
  | [] => ""
  | (k, v) :: rest => "- " ++ k ++ ": " ++ pyStr v ++ "\n" ++ riskFlagLines rest

/-- `"".join([f"- \x7bitem\x7d\n" for item in xs])` (lines 94 and 97). -/
def bulletLines (items : List Json) : String :=
  String.join (items.map fun item => "- " ++ pyStr item ++ "\n")

/-- The 38-dash section separator line of the report, with its 4-space
indent. -/
def sepLine : String := "    --------------------------------------"

/-- `format_report` (src/app.py lines 64-112): renders the evaluation dict
and the intake form into the report text, then strips surrounding
whitespace.  Fallible exactly where the Python is: `.items()` on a non-dict
`risk_flags`, and iteration over a non-iterable `recommended_followups` or
`differential_considerations`. -/
def format_report (evaluation : List (String × Json)) (patient : IntakeForm) :
    Except PyErr String :=
  match pyItems (getD evaluation "risk_flags" (Json.obj [])) with
  | Except.error e => Except.error e
  | Except.ok rf =>
  match pyIter (getD evaluation "recommended_followups" (Json.arr [])) with
  | Except.error e => Except.error e
  | Except.ok fu =>
  match pyIter (getD evaluation "differential_considerations" (Json.arr [])) with
  | Except.error e => Except.error e
  | Except.ok dc =>
  let header :=
    "\n    ======================================\n" ++
    "              Patient Evaluation Report\n" ++
    "    ======================================\n\n" ++
    "    Patient: " ++ patient.name ++ "\n" ++
    "    Age: " ++ ageStr patient.age ++ "\n" ++
    "    Gender: " ++ genderOrDefault patient.gender ++ "\n\n" ++
    sepLine ++ "\n    Chief Complaint\n" ++ sepLine ++ "\n    " ++
    pyStr (getD evaluation "chief_complaint" (Json.str "N/A")) ++ "\n\n" ++
    sepLine ++ "\n    History Summary\n" ++ sepLine ++ "\n    " ++
    pyStr (getD evaluation "history_summary" (Json.str "N/A")) ++ "\n\n" ++
    sepLine ++ "\n    Risk Flags\n" ++ sepLine ++ "\n    "
  let midFU :=
    "\n\n--------------------------------------\nRecommended Follow-ups\n--------------------------------------\n"
  let midDC :=
    "\n\n--------------------------------------\nDifferential Considerations\n--------------------------------------\n"
  let tail :=
    "\n\n" ++ sepLine ++ "\n    Patient-Friendly Summary\n" ++ sepLine ++ "\n    " ++
    pyStr (getD evaluation "patient_friendly_summary" (Json.str "N/A")) ++ "\n\n" ++
    sepLine ++ "\n    Emergency Guidance\n" ++ sepLine ++ "\n    " ++
    "🚨 " ++ pyStr (getD evaluation "emergency_guidance" (Json.str "N/A")) ++ " 🚨\n    "
  Except.ok (pyStrip
    (header ++ riskFlagLines rf ++ midFU ++ bulletLines fu ++
     midDC ++ bulletLines dc ++ tail))

/-- The normalization step of `evaluate_patient` (src/app.py lines 148-159),
applied to an already-parsed provider output: stringify the values of
`risk_flags` (raising `AttributeError` when `evaluation` or its `risk_flags`
entry is not a dict, as `.get`/`.items()` do), then store the recomputed
`formatted_report`. -/
def normalize (data : IntakeForm) (evaluation : Json) : Except PyErr Json :=
  match evaluation with
  | Json.obj kvs =>
      match pyItems (getD kvs "risk_flags" (Json.obj [])) with
      | Except.error e => Except.error e
      | Except.ok rf =>
          let ev1 := setKey kvs "risk_flags"
            (Json.obj (rf.map fun p => (p.1, Json.str (pyStr p.2))))
          match format_report ev1 data with
          | Except.error e => Except.error e
          | Except.ok report =>
              Except.ok (Json.obj (setKey ev1 "formatted_report" (Json.str report)))
  | _ => Except.error PyErr.attributeError

/-! ## A model of `json.loads` (src/app.py line 149)

A strict recursive-descent JSON parser over the character list of the raw
provider output, fuelled by the input length.  Numbers are integers (see
the header comment); string escapes `\" \\ / n t r` are supported.  The
parser is used to separate "raw text decodes as JSON" from "raw text does
not decode": a `none` result is where CPython's `json.loads` raises
`json.JSONDecodeError`. -/

/-- The left-brace character, written via its code point. -/
def lbrace : Char := Char.ofNat 123

/-- The right-brace character, written via its code point. -/
def rbrace : Char := Char.ofNat 125

/-- Skip JSON whitespace. -/
def skipWs : List Char → List Char
  | [] => []
  | c :: rest =>
      if c = ' ' ∨ c = '\t' ∨ c = '\n' ∨ c = '\r' then skipWs rest else c :: rest

/-- Consume an expected literal. -/
def parseLit (lit : List Char) (cs : List Char) : Option (List Char) :=
  if lit.isPrefixOf cs then some (cs.drop lit.length) else none

/-- Split a leading run of decimal digits from the rest. -/
def takeDigits : List Char → List Char × List Char
  | [] => ([], [])
  | c :: rest =>
      if c.isDigit then
        let (ds, r) := takeDigits rest
        (c :: ds, r)
      else ([], c :: rest)

/-- Value of a digit run. -/
def digitsToNat (ds : List Char) : Nat :=
  ds.foldl (fun acc c => 10 * acc + (c.toNat - 48)) 0

/-- Parse the digits of a JSON integer, `neg` recording a leading minus. -/
def parseIntRest (neg : Bool) (cs : List Char) : Option (Json × List Char) :=
  match takeDigits cs with
  | ([], _) => none
  | (ds, rest) =>
      let n : Int := Int.ofNat (digitsToNat ds)
      some (Json.num (if neg then -n else n), rest)

/-- Parse the body of a JSON string after the opening quote. -/
def parseStrBody : List Char → Option (String × List Char)
  | [] => none
  | c :: rest =>
      if c = '"' then some ("", rest)
      else if c = '\\' then
        match rest with
        | [] => none
        | e :: rest2 =>
            let decoded : Option Char :=
              if e = '"' then some '"'
              else if e = '\\' then some '\\'
              else if e = '/' then some '/'
              else if e = 'n' then some '\n'
              else if e = 't' then some '\t'
              else if e = 'r' then some '\r'
              else none
            match decoded with
            | none => none
            | some d =>
                (parseStrBody rest2).map fun p =>
                  (String.singleton d ++ p.1, p.2)
      else
        (parseStrBody rest).map fun p => (String.singleton c ++ p.1, p.2)

/-- CPython object construction from parsed key/value pairs: later duplicate
keys overwrite earlier values in place. -/
def objOfPairs (ps : List (String × Json)) : List (String × Json) :=
  ps.foldl (fun acc p => setKey acc p.1 p.2) []

mutual

/-- Parse one JSON value. -/
def parseValue : Nat → List Char → Option (Json × List Char)
  | 0, _ => none
  | fuel + 1, cs =>
      match skipWs cs with
      | [] => none
      | c :: rest =>
          if c = 'n' then (parseLit ['u', 'l', 'l'] rest).map (Json.null, ·)
          else if c = 't' then (parseLit ['r', 'u', 'e'] rest).map (Json.bool true, ·)
          else if c = 'f' then (parseLit ['a', 'l', 's', 'e'] rest).map (Json.bool false, ·)
          else if c = '"' then (parseStrBody rest).map fun p => (Json.str p.1, p.2)
          else if c = '-' then parseIntRest true rest
          else if c.isDigit then parseIntRest false (c :: rest)
          else if c = '[' then
            match skipWs rest with
            | ']' :: rest2 => some (Json.arr [], rest2)
            | cs2 => (parseArrItems fuel cs2).map fun p => (Json.arr p.1, p.2)
          else if c = lbrace then
            match skipWs rest with
            | d :: rest2 =>
                if d = rbrace then some (Json.obj [], rest2)
                else
                  (parseObjItems fuel (d :: rest2)).map fun p =>
                    (Json.obj (objOfPairs p.1), p.2)
            | [] => none
          else none

/-- Parse the comma-separated items of a non-empty JSON array, including the
closing bracket. -/
def parseArrItems : Nat → List Char → Option (List Json × List Char)
  | 0, _ => none
  | fuel + 1, cs => do
      let (v, r) ← parseValue fuel cs
      match skipWs r with
      | c :: r2 =>
          if c = ',' then (parseArrItems fuel r2).map fun p => (v :: p.1, p.2)
          else if c = ']' then some ([v], r2)
          else none
      | [] => none

/-- Parse the comma-separated entries of a non-empty JSON object, including
the closing brace. -/
def parseObjItems : Nat → List Char → Option (List (String × Json) × List Char)
  | 0, _ => none
  | fuel + 1, cs =>
      match skipWs cs with
      | c :: rest =>
          if c = '"' then do
            let (k, r) ← parseStrBody rest
            match skipWs r with
            | d :: r2 =>
                if d = ':' then do
                  let (v, r3) ← parseValue fuel r2
                  match skipWs r3 with
                  | e :: r4 =>
                      if e = ',' then
                        (parseObjItems fuel r4).map fun p => ((k, v) :: p.1, p.2)
                      else if e = rbrace then some ([(k, v)], r4)
                      else none
                  | [] => none
                else none
            | [] => none
          else none
      | [] => none

end

/-- `json.loads`: parse the whole string as a single JSON value, rejecting
trailing non-whitespace.  `none` models a raised `json.JSONDecodeError`. -/
def json_loads (raw : String) : Option Json :=
  match parseValue (raw.length + 1) raw.toList with
  | some (j, rest) => if skipWs rest = [] then some j else none
  | none => none

/-! ## The orchestrator and its error handling (src/app.py lines 115-162) -/

/-- A FastAPI `HTTPException`: status code and detail string. -/
structure HTTPException where
  status : Nat
  detail : String
deriving DecidableEq

/-- The `except` clause of `evaluate_patient` (lines 161-162): every
exception `e` raised in the body is reported as
`HTTPException(500, f"Internal error: \x7bstr(e)\x7d")`. -/
def handle_exception (msg : String) : HTTPException :=
  ⟨500, "Internal error: " ++ msg⟩

/-- The post-generation stages of `evaluate_patient` (lines 148-162):
decode the raw provider output, run the normalization step, and map any
raised exception through `handle_exception`.  The normalization step is a
parameter so that theorems can state that it is not invoked on parse
failure; `decodeMsg raw` is `str` of the `json.JSONDecodeError` raised on
`raw`, and `errMsg` is `str` of an exception raised by normalization. -/
def run_after_generation (norm : IntakeForm → Json → Except PyErr Json)
    (decodeMsg : String → String) (errMsg : PyErr → String)
    (data : IntakeForm) (raw : String) : Except HTTPException Json :=
  match json_loads raw with
  | none => Except.error (handle_exception (decodeMsg raw))
  | some j =>
      match norm data j with
      | Except.error e => Except.error (handle_exception (errMsg e))
      | Except.ok r => Except.ok r

/-- `evaluate_patient` (lines 115-162) after prompt building: `gen` is the
outcome of the call to the external generation collaborator
(`Except.error m` when the call raised with message `m`, `Except.ok raw`
when it returned raw text), followed by decoding and normalization, with
every exception reported through `handle_exception`. -/
def evaluate_patient (gen : Except String String)
    (decodeMsg : String → String) (errMsg : PyErr → String)
    (data : IntakeForm) : Except HTTPException Json :=
  match gen with
  | Except.error m => Except.error (handle_exception m)
  | Except.ok raw => run_after_generation normalize decodeMsg errMsg data raw

/-! ## Bearer-token verification (src/app.py lines 29-35) -/

/-- `API_TOKEN = os.getenv("API_TOKEN", "hart-backend-secret-2025")`
(line 30): the configured token is the environment value when set, else the
hardcoded default. -/
def API_TOKEN (env : Option String) : String :=
  env.getD "hart-backend-secret-2025"

/-- `verify_token` (lines 32-35): reject with HTTP 403 unless the presented
credential equals the configured token. -/
def verify_token (apiToken : String) (credentials : String) :
    Except HTTPException Bool :=
  if credentials ≠ apiToken then Except.error ⟨403, "Not authenticated"⟩
  else Except.ok true

/-- The `Depends(verify_token)` guard on an endpoint (line 115): the handler
runs only when `verify_token` succeeds; otherwise its `HTTPException` is the
response. -/
def run_protected {α : Type} (apiToken credentials : String)
    (handler : Except HTTPException α) : Except HTTPException α :=
  match verify_token apiToken credentials with
  | Except.error e => Except.error e
  | Except.ok _ => handler

/-! ## Helper observations on results, and sample inputs for witnesses -/

/-- The entry list of a successful normalization result. -/
def okObj : Except PyErr Json → Option (List (String × Json))
  | Except.ok (Json.obj kvs) => some kvs
  | _ => none

/-- The string stored for key `k` of the `risk_flags` mapping of a
successful normalization result, when it is a string. -/
def riskFlagValue (res : Except PyErr Json) (k : String) : Option String :=
  match okObj res with
  | some kvs =>
      match alookup kvs "risk_flags" with
      | some (Json.obj m) =>
          match alookup m k with
          | some (Json.str s) => some s
          | _ => none
      | _ => none
  | none => none

/-- A sample intake form. -/
def sampleForm : IntakeForm :=
  ⟨"Alice", PyAge.int 30, none, ["cough"], none, none, none⟩

/-- The sample form with `gender` set to the empty string instead of
absent. -/
def sampleFormEmptyGender : IntakeForm :=
  ⟨"Alice", PyAge.int 30, some "", ["cough"], none, none, none⟩

/-- The risk-flags example of the specification:
`\x7b"risk_flags": \x7b"chest_pain": true, "age": 42\x7d\x7d`. -/
def riskFlagsExample : Json :=
  Json.obj [("risk_flags",
    Json.obj [("chest_pain", Json.bool true), ("age", Json.num 42)])]

/-- The list-as-flags example of the specification:
`\x7b"risk_flags": ["a", "b"]\x7d`. -/
def listFlagsExample : Json :=
  Json.obj [("risk_flags", Json.arr [Json.str "a", Json.str "b"])]

/-- A sample `str` of the `json.JSONDecodeError` CPython raises on the text
`"not json\x7b"`. -/
def sampleDecodeMsg : String → String :=
  fun _ => "Expecting value: line 1 column 1 (char 0)"

/-- A sample `str` of the exceptions the normalization step can raise. -/
def sampleErrMsg : PyErr → String
  | PyErr.attributeError => "'list' object has no attribute 'items'"
  | PyErr.typeError => "'int' object is not iterable"

/-- The concrete value produced by normalizing the empty JSON object with
the sample form; used as a witness value. -/
def sampleNormalized : Json :=
  match normalize sampleForm (Json.obj []) with
  | Except.ok r => r
  | Except.error _ => Json.null

/-! ## Dictionary lemmas -/

theorem alookup_setKey_self (kvs : List (String × Json)) (k : String) (v : Json) :
    alookup (setKey kvs k v) k = some v := by
  induction kvs with
  | nil => simp [setKey, alookup]
  | cons p rest ih =>
      obtain ⟨k', w⟩ := p
      by_cases hk : k' = k
      · simp [setKey, hk, alookup]
      · simp [setKey, hk, alookup, ih]

theorem alookup_setKey_other (kvs : List (String × Json)) (k : String) (v : Json)
    (k' : String) (h : k' ≠ k) :
    alookup (setKey kvs k v) k' = alookup kvs k' := by
  induction kvs with
  | nil => simp [setKey, alookup, Ne.symm h]
  | cons p rest ih =>
      obtain ⟨k0, w⟩ := p
      by_cases hk : k0 = k
      · subst hk
        simp [setKey, alookup, Ne.symm h]
      · simp [setKey, hk, alookup, ih]

theorem setKey_setKey (kvs : List (String × Json)) (k : String) (v w : Json) :
    setKey (setKey kvs k v) k w = setKey kvs k w := by
  induction kvs with
  | nil => simp [setKey]
  | cons p rest ih =>
      obtain ⟨k0, u⟩ := p
      by_cases hk : k0 = k
      · simp [setKey, hk]
      · simp [setKey, hk, ih]

/-- Writing key `A`, then key `B ≠ A`, then key `A` again yields a dict
independent of the first value written at `A`. -/
theorem setKey_mid_irrel (kvs : List (String × Json)) (A B : String)
    (hAB : B ≠ A) (v v' X w : Json) :
    setKey (setKey (setKey kvs A v) B X) A w =
      setKey (setKey (setKey kvs A v') B X) A w := by
  induction kvs with
  | nil => simp [setKey, hAB, Ne.symm hAB]
  | cons p rest ih =>
      obtain ⟨k0, u⟩ := p
      by_cases hkA : k0 = A
      · subst hkA
        simp [setKey, Ne.symm hAB]
      · by_cases hkB : k0 = B
        · subst hkB
          simp [setKey, hkA, Ne.symm hAB, hAB, setKey_setKey]
        · simp [setKey, hkA, hkB, ih]

/-- `format_report` reads the evaluation dict only at its seven content
keys; two dicts agreeing everywhere outside `formatted_report` render
identically. -/
theorem format_report_congr (ev ev' : List (String × Json)) (d : IntakeForm)
    (h : ∀ k, k ≠ "formatted_report" → alookup ev k = alookup ev' k) :
    format_report ev d = format_report ev' d := by
  have h1 : getD ev "risk_flags" (Json.obj []) = getD ev' "risk_flags" (Json.obj []) := by
    unfold getD; rw [h _ (by decide)]
  have h2 : getD ev "recommended_followups" (Json.arr []) =
      getD ev' "recommended_followups" (Json.arr []) := by
    unfold getD; rw [h _ (by decide)]
  have h3 : getD ev "differential_considerations" (Json.arr []) =
      getD ev' "differential_considerations" (Json.arr []) := by
    unfold getD; rw [h _ (by decide)]
  have h4 : getD ev "chief_complaint" (Json.str "N/A") =
      getD ev' "chief_complaint" (Json.str "N/A") := by
    unfold getD; rw [h _ (by decide)]
  have h5 : getD ev "history_summary" (Json.str "N/A") =
      getD ev' "history_summary" (Json.str "N/A") := by
    unfold getD; rw [h _ (by decide)]
  have h6 : getD ev "patient_friendly_summary" (Json.str "N/A") =
      getD ev' "patient_friendly_summary" (Json.str "N/A") := by
    unfold getD; rw [h _ (by decide)]
  have h7 : getD ev "emergency_guidance" (Json.str "N/A") =
      getD ev' "emergency_guidance" (Json.str "N/A") := by
    unfold getD; rw [h _ (by decide)]
  unfold format_report
  rw [h1, h2, h3, h4, h5, h6, h7]

/-! ## Normalization lemmas -/

theorem pyItems_ok_iff (j : Json) (m : List (String × Json)) :
    pyItems j = Except.ok m ↔ j = Json.obj m := by
  cases j <;> simp [pyItems]

/-- Unfolded form of `normalize` on an object. -/
theorem normalize_obj_eq (d : IntakeForm) (kvs : List (String × Json)) :
    normalize d (Json.obj kvs) =
      match pyItems (getD kvs "risk_flags" (Json.obj [])) with
      | Except.error e => Except.error e
      | Except.ok rf =>
          match format_report (setKey kvs "risk_flags"
              (Json.obj (rf.map fun p => (p.1, Json.str (pyStr p.2))))) d with
          | Except.error e => Except.error e
          | Except.ok report =>
              Except.ok (Json.obj (setKey (setKey kvs "risk_flags"
                (Json.obj (rf.map fun p => (p.1, Json.str (pyStr p.2)))))
                "formatted_report" (Json.str report))) := by
  unfold normalize
  rfl

/-- When `risk_flags` reads as a dict and the two sequence fields are
iterable, `format_report` succeeds. -/
theorem format_report_isOk (ev : List (String × Json)) (d : IntakeForm)
    (rf : List (String × Json)) (fu dc : List Json)
    (h1 : getD ev "risk_flags" (Json.obj []) = Json.obj rf)
    (h2 : pyIter (getD ev "recommended_followups" (Json.arr [])) = Except.ok fu)
    (h3 : pyIter (getD ev "differential_considerations" (Json.arr [])) =
      Except.ok dc) :
    ∃ r, format_report ev d = Except.ok r := by
  unfold format_report
  rw [h1, h2, h3]
  exact ⟨_, rfl⟩

/-- Success form of the normalization step: when the source `risk_flags` is
a dict and the two sequence fields are iterable, `normalize` returns the
source dict with `risk_flags` stringified in place and `formatted_report`
written last. -/
theorem normalize_spec (d : IntakeForm) (kvs m : List (String × Json))
    (hm : getD kvs "risk_flags" (Json.obj []) = Json.obj m)
    (hfu : ∃ xs, pyIter (getD kvs "recommended_followups" (Json.arr [])) =
      Except.ok xs)
    (hdc : ∃ xs, pyIter (getD kvs "differential_considerations" (Json.arr [])) =
      Except.ok xs) :
    ∃ r, normalize d (Json.obj kvs) =
      Except.ok (Json.obj (setKey (setKey kvs "risk_flags"
        (Json.obj (m.map fun p => (p.1, Json.str (pyStr p.2)))))
        "formatted_report" (Json.str r))) := by
  obtain ⟨fu, hfu⟩ := hfu
  obtain ⟨dc, hdc⟩ := hdc
  have e1 : getD (setKey kvs "risk_flags"
      (Json.obj (m.map fun p => (p.1, Json.str (pyStr p.2))))) "risk_flags"
      (Json.obj []) = Json.obj (m.map fun p => (p.1, Json.str (pyStr p.2))) := by
    unfold getD
    rw [alookup_setKey_self]
    rfl
  have e2 : getD (setKey kvs "risk_flags"
      (Json.obj (m.map fun p => (p.1, Json.str (pyStr p.2)))))
      "recommended_followups" (Json.arr []) =
      getD kvs "recommended_followups" (Json.arr []) := by
    unfold getD
    rw [alookup_setKey_other _ _ _ _ (by decide)]
  have e3 : getD (setKey kvs "risk_flags"
      (Json.obj (m.map fun p => (p.1, Json.str (pyStr p.2)))))
      "differential_considerations" (Json.arr []) =
      getD kvs "differential_considerations" (Json.arr []) := by
    unfold getD
    rw [alookup_setKey_other _ _ _ _ (by decide)]
  obtain ⟨r, hr⟩ := format_report_isOk
    (setKey kvs "risk_flags" (Json.obj (m.map fun p => (p.1, Json.str (pyStr p.2)))))
    d (m.map fun p => (p.1, Json.str (pyStr p.2))) fu dc e1
    (by rw [e2]; exact hfu) (by rw [e3]; exact hdc)
  refine ⟨r, ?_⟩
  rw [normalize_obj_eq, hm]
  simp only [pyItems]
  rw [hr]

/-- Failure form of the normalization step: a present, non-dict
`risk_flags` raises `AttributeError`. -/
theorem normalize_eq_error_of_flags (d : IntakeForm)
    (kvs : List (String × Json)) (v : Json)
    (hv : getD kvs "risk_flags" (Json.obj []) = v)
    (hno : ∀ m, v ≠ Json.obj m) :
    normalize d (Json.obj kvs) = Except.error PyErr.attributeError := by
  rw [normalize_obj_eq, hv]
  cases v with
  | obj m => exact absurd rfl (hno m)
  | null => rfl
  | bool b => rfl
  | num n => rfl
  | str s => rfl
  | arr xs => rfl

/-- Inversion of a successful normalization. -/
theorem normalize_ok_shape (d : IntakeForm) (kvs : List (String × Json))
    (res : Json) (h : normalize d (Json.obj kvs) = Except.ok res) :
    ∃ m r, getD kvs "risk_flags" (Json.obj []) = Json.obj m
      ∧ format_report (setKey kvs "risk_flags"
          (Json.obj (m.map fun p => (p.1, Json.str (pyStr p.2))))) d =
        Except.ok r
      ∧ res = Json.obj (setKey (setKey kvs "risk_flags"
          (Json.obj (m.map fun p => (p.1, Json.str (pyStr p.2)))))
          "formatted_report" (Json.str r)) := by
  rw [normalize_obj_eq] at h
  split at h
  · exact Except.noConfusion h
  · rename_i rf heq1
    split at h
    · exact Except.noConfusion h
    · rename_i r heq2
      cases h
      exact ⟨rf, r, (pyItems_ok_iff _ _).mp heq1, heq2, rfl⟩

/-! ## Claim theorems -/

/-- C8: report rendering is deterministic — two calls to `format_report`
with identical evaluation dict and intake form produce byte-identical
output. -/
theorem report_rendering_deterministic (ev ev' : List (String × Json))
    (d d' : IntakeForm) (h1 : ev = ev') (h2 : d = d') :
    format_report ev d = format_report ev' d' := by
  rw [h1, h2]

/-- Witness for C8 at a concrete evaluation dict and intake form. -/
theorem report_rendering_deterministic_witness :
    format_report [] sampleForm = format_report [] sampleForm :=
  report_rendering_deterministic [] [] sampleForm sampleForm rfl rfl

/-- C10: token verification is an exact-match gate — `verify_token`
succeeds iff the presented credential equals the configured token (the
environment value, defaulting to `"hart-backend-secret-2025"`), and on a
mismatch the guarded endpoint reports HTTP 403 without the handler
influencing the outcome. -/
theorem token_gate_exact (env : Option String) (cred : String) :
    ((verify_token (API_TOKEN env) cred = Except.ok true) ↔ cred = API_TOKEN env)
    ∧ API_TOKEN none = "hart-backend-secret-2025"
    ∧ (cred ≠ API_TOKEN env →
        ∀ (α : Type) (h1 h2 : Except HTTPException α),
          run_protected (API_TOKEN env) cred h1 =
              Except.error ⟨403, "Not authenticated"⟩
          ∧ run_protected (API_TOKEN env) cred h1 =
              run_protected (API_TOKEN env) cred h2) := by
  refine ⟨⟨fun h => ?_, fun h => ?_⟩, rfl, fun hne α h1 h2 => ?_⟩
  · by_contra hne
    simp [verify_token, hne] at h
  · simp [verify_token, h]
  · constructor <;> simp [run_protected, verify_token, hne]

/-- Witness for C10: the default token is accepted, a wrong credential is
rejected with 403. -/
theorem token_gate_exact_witness :
    verify_token (API_TOKEN none) "hart-backend-secret-2025" = Except.ok true
    ∧ run_protected (API_TOKEN none) "wrong" (Except.ok (0 : Nat)) =
        Except.error ⟨403, "Not authenticated"⟩ :=
  ⟨(token_gate_exact none "hart-backend-secret-2025").1.mpr rfl,
   ((token_gate_exact none "wrong").2.2 (by decide) Nat
      (Except.ok 0) (Except.ok 0)).1⟩

/-- C9 counterexample: the data model does keep absent (`None`) distinct
from the empty string, but the renderer maps an absent gender and an
empty-string gender to the same report text, so for that field the two
intake forms are not distinguishable from the rendered output. -/
theorem absent_vs_empty_cex :
    sampleForm.gender = none
    ∧ sampleFormEmptyGender.gender = some ""
    ∧ (none : Option String) ≠ some ""
    ∧ format_report [] sampleForm = format_report [] sampleFormEmptyGender := by
  refine ⟨rfl, rfl, by simp, ?_⟩
  unfold format_report
  simp [sampleForm, sampleFormEmptyGender, genderOrDefault]

/-- C9 amended: absent optional fields are `None`, distinct from the empty
string in the data model, but `format_report` renders both an absent and an
empty-string `gender` as `"Not specified"`, so its output does not
distinguish the two for that field. -/
theorem absent_vs_empty_amended (ev : List (String × Json)) (name : String)
    (age : PyAge) (sy : List String) (hi me : Option String)
    (li : Option (List (String × String))) :
    genderOrDefault none = "Not specified"
    ∧ genderOrDefault (some "") = "Not specified"
    ∧ (none : Option String) ≠ some ""
    ∧ format_report ev ⟨name, age, none, sy, hi, me, li⟩ =
        format_report ev ⟨name, age, some "", sy, hi, me, li⟩ := by
  refine ⟨rfl, rfl, by simp, ?_⟩
  unfold format_report
  simp [genderOrDefault]

/-- C6: parse-failure isolation — when the raw provider output does not
decode as JSON, `evaluate_patient` terminates with the decode failure
response, and the outcome of the post-generation stages does not depend on
the normalization step at all (it is never invoked). -/
theorem parse_failure_isolation (decodeMsg : String → String)
    (errMsg : PyErr → String) (d : IntakeForm) (raw : String)
    (h : json_loads raw = none) :
    evaluate_patient (Except.ok raw) decodeMsg errMsg d =
        Except.error (handle_exception (decodeMsg raw))
    ∧ ∀ norm norm' : IntakeForm → Json → Except PyErr Json,
        run_after_generation norm decodeMsg errMsg d raw =
          run_after_generation norm' decodeMsg errMsg d raw := by
  refine ⟨?_, fun norm norm' => ?_⟩
  · simp [evaluate_patient, run_after_generation, h]
  · simp [run_after_generation, h]

/-- Witness for C6 at the raw text `"not json\x7b"`. -/
theorem parse_failure_isolation_witness :
    json_loads "not json\x7b" = none
    ∧ evaluate_patient (Except.ok "not json\x7b") sampleDecodeMsg sampleErrMsg
        sampleForm
      = Except.error (handle_exception (sampleDecodeMsg "not json\x7b")) :=
  ⟨rfl,
   (parse_failure_isolation sampleDecodeMsg sampleErrMsg sampleForm
      "not json\x7b" rfl).1⟩

/-- C5 counterexample: a run whose generation call raised with message
`"Expecting value: line 1 column 1 (char 0)"` and a run whose provider
returned the undecodable text `"not json\x7b"` produce the very same
reported failure, so the reported failure cannot always tell the two error
classes apart. -/
theorem error_distinction_cex :
    evaluate_patient (Except.error "Expecting value: line 1 column 1 (char 0)")
        sampleDecodeMsg sampleErrMsg sampleForm
      = evaluate_patient (Except.ok "not json\x7b")
          sampleDecodeMsg sampleErrMsg sampleForm
    ∧ json_loads "not json\x7b" = none := by
  exact ⟨rfl, rfl⟩

/-- C5 amended: every failure of `evaluate_patient` — generation
unavailable, undecodable provider output, or a normalization-stage
exception — is surfaced as the same shape, HTTP 500 with detail
`"Internal error: " ++ str(e)`; the classes are distinguishable only
through the unstructured message text. -/
theorem error_reporting_uniform (gen : Except String String)
    (decodeMsg : String → String) (errMsg : PyErr → String) (d : IntakeForm)
    (e : HTTPException)
    (h : evaluate_patient gen decodeMsg errMsg d = Except.error e) :
    e.status = 500 ∧ ∃ m, e.detail = "Internal error: " ++ m := by
  cases gen with
  | error m =>
      simp [evaluate_patient] at h
      subst h
      exact ⟨rfl, m, rfl⟩
  | ok raw =>
      simp [evaluate_patient, run_after_generation] at h
      cases hj : json_loads raw with
      | none =>
          rw [hj] at h
          simp at h
          subst h
          exact ⟨rfl, decodeMsg raw, rfl⟩
      | some j =>
          rw [hj] at h
          simp at h
          cases hn : normalize d j with
          | error pe =>
              rw [hn] at h
              simp at h
              subst h
              exact ⟨rfl, errMsg pe, rfl⟩
          | ok res =>
              rw [hn] at h
              simp at h

/-- Witness for C5's amended claim at a generation failure with message
`"boom"`. -/
theorem error_reporting_uniform_witness :
    (handle_exception "boom").status = 500
    ∧ ∃ m, (handle_exception "boom").detail = "Internal error: " ++ m :=
  error_reporting_uniform (Except.error "boom") sampleDecodeMsg sampleErrMsg
    sampleForm (handle_exception "boom") rfl

/-- C1 counterexample: normalization is not total — a parsed JSON object
whose `risk_flags` is the number 5 makes the step raise `AttributeError`
(surfaced as HTTP 500) instead of returning a typed result. -/
theorem normalization_total_cex :
    normalize sampleForm (Json.obj [("risk_flags", Json.num 5)]) =
      Except.error PyErr.attributeError := rfl

/-- C1 amended: the normalization step terminates without raising exactly
when `risk_flags` reads as a dict and the two sequence fields are iterable;
it then returns the source object with `risk_flags` stringified and
`formatted_report` recomputed, passing every other key through unchanged —
missing fields are not defaulted. -/
theorem normalization_conditional_totality (d : IntakeForm)
    (kvs m : List (String × Json))
    (hm : getD kvs "risk_flags" (Json.obj []) = Json.obj m)
    (hfu : ∃ xs, pyIter (getD kvs "recommended_followups" (Json.arr [])) =
      Except.ok xs)
    (hdc : ∃ xs, pyIter (getD kvs "differential_considerations" (Json.arr [])) =
      Except.ok xs) :
    ∃ kvs' r,
      normalize d (Json.obj kvs) = Except.ok (Json.obj kvs')
      ∧ alookup kvs' "risk_flags" =
          some (Json.obj (m.map fun p => (p.1, Json.str (pyStr p.2))))
      ∧ (∀ p ∈ m.map fun p => (p.1, Json.str (pyStr p.2)),
          ∃ s, p.2 = Json.str s)
      ∧ alookup kvs' "formatted_report" = some (Json.str r)
      ∧ ∀ k, k ≠ "risk_flags" → k ≠ "formatted_report" →
          alookup kvs' k = alookup kvs k := by
  obtain ⟨r, hr⟩ := normalize_spec d kvs m hm hfu hdc
  refine ⟨_, r, hr, ?_, ?_, ?_, ?_⟩
  · rw [alookup_setKey_other _ _ _ _ (by decide), alookup_setKey_self]
  · intro p hp
    rw [List.mem_map] at hp
    obtain ⟨q, -, rfl⟩ := hp
    exact ⟨_, rfl⟩
  · rw [alookup_setKey_self]
  · intro k hk1 hk2
    rw [alookup_setKey_other _ _ _ _ hk2, alookup_setKey_other _ _ _ _ hk1]

/-- Witness for C1's amended claim at an object carrying one string field
and no `risk_flags`. -/
theorem normalization_conditional_totality_witness :
    ∃ kvs' r,
      normalize sampleForm (Json.obj [("chief_complaint", Json.str "x")]) =
        Except.ok (Json.obj kvs')
      ∧ alookup kvs' "risk_flags" =
          some (Json.obj (([] : List (String × Json)).map
            fun p => (p.1, Json.str (pyStr p.2))))
      ∧ (∀ p ∈ ([] : List (String × Json)).map
            fun p => (p.1, Json.str (pyStr p.2)), ∃ s, p.2 = Json.str s)
      ∧ alookup kvs' "formatted_report" = some (Json.str r)
      ∧ ∀ k, k ≠ "risk_flags" → k ≠ "formatted_report" →
          alookup kvs' k = alookup [("chief_complaint", Json.str "x")] k :=
  normalization_conditional_totality sampleForm
    [("chief_complaint", Json.str "x")] [] rfl ⟨[], rfl⟩ ⟨[], rfl⟩

/-- C2 counterexample: at the specification's own example input the code
yields `"True"` (Python `str(True)`) for `chest_pain`, not `"Yes"`. -/
theorem risk_flag_coercion_cex :
    riskFlagValue (normalize sampleForm riskFlagsExample) "chest_pain" =
      some "True"
    ∧ "True" ≠ "Yes"
    ∧ riskFlagValue (normalize sampleForm riskFlagsExample) "age" = some "42" := by
  refine ⟨rfl, by decide, rfl⟩

/-- C2 amended: each `risk_flags` value is stringified independently with
Python `str`: `true` becomes `"True"`, `false` becomes `"False"`, a number
becomes its decimal text, a string stays verbatim; the example input yields
`risk_flags == \x7b"chest_pain": "True", "age": "42"\x7d`. -/
theorem risk_flag_coercion_str (d : IntakeForm) (kvs m : List (String × Json))
    (hm : getD kvs "risk_flags" (Json.obj []) = Json.obj m)
    (hfu : ∃ xs, pyIter (getD kvs "recommended_followups" (Json.arr [])) =
      Except.ok xs)
    (hdc : ∃ xs, pyIter (getD kvs "differential_considerations" (Json.arr [])) =
      Except.ok xs) :
    pyStr (Json.bool true) = "True"
    ∧ pyStr (Json.bool false) = "False"
    ∧ (∀ n : Int, pyStr (Json.num n) = toString n)
    ∧ (∀ s : String, pyStr (Json.str s) = s)
    ∧ ∃ kvs', normalize d (Json.obj kvs) = Except.ok (Json.obj kvs')
        ∧ alookup kvs' "risk_flags" =
            some (Json.obj (m.map fun p => (p.1, Json.str (pyStr p.2)))) := by
  obtain ⟨r, hr⟩ := normalize_spec d kvs m hm hfu hdc
  refine ⟨rfl, rfl, fun n => rfl, fun s => rfl, _, hr, ?_⟩
  rw [alookup_setKey_other _ _ _ _ (by decide), alookup_setKey_self]

/-- Witness for C2's amended claim at the specification's example input. -/
theorem risk_flag_coercion_str_witness :
    pyStr (Json.bool true) = "True"
    ∧ pyStr (Json.bool false) = "False"
    ∧ (∀ n : Int, pyStr (Json.num n) = toString n)
    ∧ (∀ s : String, pyStr (Json.str s) = s)
    ∧ ∃ kvs',
        normalize sampleForm riskFlagsExample = Except.ok (Json.obj kvs')
        ∧ alookup kvs' "risk_flags" =
            some (Json.obj ([("chest_pain", Json.bool true),
              ("age", Json.num 42)].map
                fun p => (p.1, Json.str (pyStr p.2)))) :=
  risk_flag_coercion_str sampleForm
    [("risk_flags", Json.obj [("chest_pain", Json.bool true),
      ("age", Json.num 42)])]
    [("chest_pain", Json.bool true), ("age", Json.num 42)]
    rfl ⟨[], rfl⟩ ⟨[], rfl⟩

/-- C3 counterexample: at the specification's list example the code raises
`AttributeError` (HTTP 500) instead of synthesizing `flag_1`, `flag_2`. -/
theorem non_mapping_flags_cex :
    normalize sampleForm listFlagsExample =
      Except.error PyErr.attributeError := rfl

/-- C3 amended: a present `risk_flags` that is not a mapping — sequence or
scalar alike — makes normalization raise `AttributeError` (no `flag_n`
keys, no `"note"` wrapping); only an absent `risk_flags` degrades to the
empty mapping. -/
theorem non_mapping_flags_behavior (d : IntakeForm)
    (kvs : List (String × Json)) :
    (∀ v, alookup kvs "risk_flags" = some v → (∀ m, v ≠ Json.obj m) →
        normalize d (Json.obj kvs) = Except.error PyErr.attributeError)
    ∧ (alookup kvs "risk_flags" = none →
        ∀ res, normalize d (Json.obj kvs) = Except.ok res →
          ∃ kvs', res = Json.obj kvs'
            ∧ alookup kvs' "risk_flags" = some (Json.obj [])) := by
  constructor
  · intro v hv hno
    refine normalize_eq_error_of_flags d kvs v ?_ hno
    unfold getD
    rw [hv]
    rfl
  · intro habs res h
    obtain ⟨m, r, hm, -, hres⟩ := normalize_ok_shape d kvs res h
    have hm0 : m = [] := by
      unfold getD at hm
      rw [habs] at hm
      exact (Json.obj.injEq _ _ ▸ hm).symm
    subst hm0
    subst hres
    refine ⟨_, rfl, ?_⟩
    rw [alookup_setKey_other _ _ _ _ (by decide), alookup_setKey_self]
    rfl

/-- Witness for C3's amended claim: the list example raises, and the empty
object normalizes with empty `risk_flags`. -/
theorem non_mapping_flags_behavior_witness :
    normalize sampleForm (Json.obj [("risk_flags",
        Json.arr [Json.str "a", Json.str "b"])]) =
      Except.error PyErr.attributeError
    ∧ ∃ kvs', sampleNormalized = Json.obj kvs'
        ∧ alookup kvs' "risk_flags" = some (Json.obj []) :=
  ⟨(non_mapping_flags_behavior sampleForm
      [("risk_flags", Json.arr [Json.str "a", Json.str "b"])]).1
      (Json.arr [Json.str "a", Json.str "b"]) rfl
      (fun _ h => Json.noConfusion h),
   (non_mapping_flags_behavior sampleForm []).2 rfl sampleNormalized rfl⟩

/-- C4 counterexample: normalizing the empty object yields an object whose
only keys are `risk_flags` and `formatted_report`; the six other schema
fields are absent, not defaulted to `""`/`[]`. -/
theorem missing_field_defaulting_cex :
    (okObj (normalize sampleForm (Json.obj []))).map
        (fun kvs => kvs.map Prod.fst) =
      some ["risk_flags", "formatted_report"] := rfl

/-- C4 amended: normalizing the empty object returns exactly
`\x7b"risk_flags": \x7b\x7d, "formatted_report": r\x7d` with `r` the report
recomputed from the otherwise-empty evaluation; no string or sequence field
is defaulted into the result. -/
theorem missing_field_behavior (d : IntakeForm) :
    ∃ r, normalize d (Json.obj []) =
        Except.ok (Json.obj [("risk_flags", Json.obj []),
          ("formatted_report", Json.str r)])
      ∧ format_report [("risk_flags", Json.obj [])] d = Except.ok r := by
  obtain ⟨r, hr⟩ := format_report_isOk [("risk_flags", Json.obj [])] d [] [] []
    rfl rfl rfl
  refine ⟨r, ?_, hr⟩
  rw [normalize_obj_eq]
  show (match format_report [("risk_flags", Json.obj [])] d with
    | Except.error e => Except.error e
    | Except.ok report =>
        Except.ok (Json.obj (setKey [("risk_flags", Json.obj [])]
          "formatted_report" (Json.str report)))) = _
  rw [hr]
  rfl

/-- C7: `formatted_report` is never taken from provider output — changing
the provider-supplied value under that key does not change the result at
all, and every successful result stores under `formatted_report` exactly
the text `format_report` recomputes from the result's own fields. -/
theorem formatted_report_recomputed (d : IntakeForm)
    (kvs : List (String × Json)) :
    (∀ v v', normalize d (Json.obj (setKey kvs "formatted_report" v)) =
        normalize d (Json.obj (setKey kvs "formatted_report" v')))
    ∧ (∀ res, normalize d (Json.obj kvs) = Except.ok res →
        ∃ kvs' r, res = Json.obj kvs'
          ∧ alookup kvs' "formatted_report" = some (Json.str r)
          ∧ format_report kvs' d = Except.ok r) := by
  constructor
  · intro v v'
    have hg : getD (setKey kvs "formatted_report" v) "risk_flags"
        (Json.obj []) = getD kvs "risk_flags" (Json.obj []) := by
      unfold getD
      rw [alookup_setKey_other _ _ _ _ (by decide)]
    have hg' : getD (setKey kvs "formatted_report" v') "risk_flags"
        (Json.obj []) = getD kvs "risk_flags" (Json.obj []) := by
      unfold getD
      rw [alookup_setKey_other _ _ _ _ (by decide)]
    rw [normalize_obj_eq d (setKey kvs "formatted_report" v),
      normalize_obj_eq d (setKey kvs "formatted_report" v'), hg, hg']
    cases hI : pyItems (getD kvs "risk_flags" (Json.obj [])) with
    | error e => rfl
    | ok m =>
        have hrep : format_report (setKey (setKey kvs "formatted_report" v)
            "risk_flags" (Json.obj (m.map fun p => (p.1, Json.str (pyStr p.2)))))
            d =
            format_report (setKey (setKey kvs "formatted_report" v')
              "risk_flags" (Json.obj (m.map fun p => (p.1, Json.str (pyStr p.2)))))
              d := by
          refine format_report_congr _ _ d fun k hk => ?_
          by_cases hkB : k = "risk_flags"
          · subst hkB
            rw [alookup_setKey_self, alookup_setKey_self]
          · rw [alookup_setKey_other _ _ _ _ hkB,
              alookup_setKey_other _ _ _ _ hkB,
              alookup_setKey_other _ _ _ _ hk,
              alookup_setKey_other _ _ _ _ hk]
        simp only [hrep]
        cases hF : format_report (setKey (setKey kvs "formatted_report" v')
            "risk_flags" (Json.obj (m.map fun p => (p.1, Json.str (pyStr p.2)))))
            d with
        | error e => rfl
        | ok r =>
            simp only []
            rw [setKey_mid_irrel kvs "formatted_report" "risk_flags"
              (by decide) v v']
  · intro res h
    obtain ⟨m, r, hm, hfr, hres⟩ := normalize_ok_shape d kvs res h
    refine ⟨_, r, hres, alookup_setKey_self _ _ _, ?_⟩
    have hcongr : format_report (setKey (setKey kvs "risk_flags"
        (Json.obj (m.map fun p => (p.1, Json.str (pyStr p.2)))))
        "formatted_report" (Json.str r)) d =
        format_report (setKey kvs "risk_flags"
          (Json.obj (m.map fun p => (p.1, Json.str (pyStr p.2))))) d :=
      format_report_congr _ _ d fun k hk => alookup_setKey_other _ _ _ _ hk
    rw [hcongr, hfr]

/-- Witness for C7 at concrete inputs: two provider-supplied
`formatted_report` values give the same result, and the result of
normalizing the empty object stores its own re-rendered report. -/
theorem formatted_report_recomputed_witness :
    normalize sampleForm (Json.obj (setKey [] "formatted_report"
        (Json.str "provider junk"))) =
      normalize sampleForm (Json.obj (setKey [] "formatted_report"
        (Json.str "other junk")))
    ∧ ∃ kvs' r, sampleNormalized = Json.obj kvs'
        ∧ alookup kvs' "formatted_report" = some (Json.str r)
        ∧ format_report kvs' sampleForm = Except.ok r :=
  ⟨(formatted_report_recomputed sampleForm []).1
      (Json.str "provider junk") (Json.str "other junk"),
   (formatted_report_recomputed sampleForm []).2 sampleNormalized rfl⟩

end Hart
